import Mathlib

/-!
Verification of the molecular-dynamics driver `src/md.c` of
nicochunger/dinamica-molecular against its natural-language specification.

The repository ships a single source file, `md.c`, whose `main` allocates
seven buffers, seeds the random generator, builds two Lennard-Jones lookup
tables, initialises positions and velocities, runs a timestep loop of
`niter` iterations (snapshot print on a cadence, `verlet` call, `Hboltzmann`
print, `lambda[i]` store) and frees every buffer.  The helper translation
units (`setup.c`, `verlet.c`, `energia.c`, `lennardjones.c`) are not part of
the available sources, so `main` is embedded at two levels:

* a statement-level trace `mainTrace` listing, in program order, every
  allocation, the `srand(time(NULL))` call, the lookup-table builds, the
  initialiser calls, the per-iteration actions of the loop with the buffer
  arguments each call receives, and the frees;
* a semantic model of the loop's standard output (`runOut`) and of the
  stored order-parameter series (`lambdaSeries`), parameterised over an
  abstract state type and over the step and diagnostic functions, since the
  bodies of `verlet`, `Hboltzmann` and `lambda_verlet` live outside the
  available sources.

Real-valued quantities (`L` on line 14, `rc` on line 15) are idealised over
`ℝ`; the remaining model is fully executable, so trace facts are settled by
`decide`.
-/

/-- Number of particles, md.c line 12: `int N = 512`. -/
def mdN : ℕ := 512

/-- Density, md.c line 13: `float rho = 0.844`. -/
def mdRho : ℚ := 0.844

/-- Timestep, md.c line 16: `float h = 0.001`. -/
def mdH : ℚ := 0.001

/-- Iteration count, md.c line 17: `int niter = 10`. -/
def mdNiter : ℕ := 10

/-- Target temperature, md.c line 18: `float T = 0.1`. -/
def mdT : ℚ := 0.1

/-- Lookup-table size, md.c line 19: `int g = 2000`, commented
"Tamano de la Lookup-table". -/
def mdG : ℕ := 2000

/-- The exponent written `(double)1/3` in md.c line 14: the cast binds to the
literal `1`, so the expression is the real division `1.0 / 3`, idealised as
the rational `1/3` (and not the integer quotient `1/3 = 0`). -/
def cOneThird : ℚ := ((1 : ℤ) : ℚ) / 3

/-- Box edge length, md.c line 14 idealised over `ℝ`:
`float L = pow(N/rho, (double)1/3)`.  `N/rho` divides an `int` by a `float`,
so the usual arithmetic conversions make it a real division. -/
def boxLenRel (L : ℝ) : Prop :=
  L = ((mdN : ℝ) / (mdRho : ℝ)) ^ ((cOneThird : ℝ))

/-- Cutoff radius, md.c line 15: `float rc = 0.5*L`. -/
def cutoffRel (L rc : ℝ) : Prop := rc = 0.5 * L

/-- The seven buffers `main` allocates, md.c lines 23-29. -/
inductive Buf where
  | LJ_LUT
  | FZA_LUT
  | pos
  | vel
  | fza
  | fza_aux
  | lambda
deriving DecidableEq

/-- Origin of the seed handed to the random generator. -/
inductive SeedSrc where
  | wallClock
  | fixed
deriving DecidableEq

/-- One statement-level action of `main`, md.c lines 11-96.  The constructors
`validateConfig`, `checkAlloc` and `printLambda` belong to the vocabulary so
that their absence from the trace can be stated: md.c contains no
configuration check, no test of a `malloc` result, and every loop that would
print the stored `lambda` series (lines 67-69 and 81-85) is commented out. -/
inductive Act where
  | validateConfig
  | alloc (b : Buf) (len : ℕ)
  | checkAlloc (b : Buf)
  | seedRandom (src : SeedSrc)
  | buildLJ (len : ℕ)
  | buildFza (len : ℕ)
  | initPositions
  | initVelocities
  | printSnapshot (i : ℕ)
  | callVerlet (i : ℕ) (args : List Buf)
  | printTemp (i : ℕ)
  | storeLambda (i : ℕ)
  | printLambda (i : ℕ)
  | free (b : Buf)
deriving DecidableEq

/-- The buffers handed to `verlet` in md.c line 56:
`verlet(pos, vel, &fza, &fza_aux, N, L, h, rc)`.  The two force buffers are
passed by address (`float **`, so `verlet` may swap the pointers between
steps), and no lookup-table buffer is among the arguments; `LJ_LUT` and
`FZA_LUT` are local variables of `main`, so `verlet` cannot reach them in
any other way. -/
def verletArgs : List Buf := [Buf.pos, Buf.vel, Buf.fza, Buf.fza_aux]

/-- Actions of one iteration of the timestep loop, md.c lines 47-64: the
snapshot print when `i % 10 == 0` (lines 49-54), the `verlet` call (line 56),
the `Hboltzmann` print (line 58), and the store
`lambda[i] = lambda_verlet(pos, N, L)` (line 60). -/
def iterActs (i : ℕ) : List Act :=
  (if i % 10 = 0 then [Act.printSnapshot i] else [])
    ++ [Act.callVerlet i verletArgs, Act.printTemp i, Act.storeLambda i]

/-- The statement-level trace of `main`, md.c lines 23-94, in program order:
seven allocations (lines 23-29), `srand(time(NULL))` (line 31), the two
lookup-table builds `lennardjones_lut(LJ_LUT, g, rc)` and
`fuerza_lut(FZA_LUT, LJ_LUT, g, rc)` (lines 34-35), the initialisers
`llenar(pos, N, L)` and `velocidades(vel, N, T)` (lines 39-40), the
`niter`-iteration loop (lines 47-64), and the seven frees (lines 88-94;
`verlet` may have swapped which block `fza` and `fza_aux` hold, but the pair
of frees releases both blocks either way). -/
def mainTrace : List Act :=
  [Act.alloc Buf.LJ_LUT mdG, Act.alloc Buf.FZA_LUT mdG,
   Act.alloc Buf.pos (3 * mdN), Act.alloc Buf.vel (3 * mdN),
   Act.alloc Buf.fza (3 * mdN), Act.alloc Buf.fza_aux (3 * mdN),
   Act.alloc Buf.lambda mdNiter,
   Act.seedRandom SeedSrc.wallClock,
   Act.buildLJ mdG, Act.buildFza mdG,
   Act.initPositions, Act.initVelocities]
    ++ (List.range mdNiter).flatMap iterActs
    ++ [Act.free Buf.LJ_LUT, Act.free Buf.FZA_LUT, Act.free Buf.pos,
        Act.free Buf.vel, Act.free Buf.fza, Act.free Buf.fza_aux,
        Act.free Buf.lambda]

/-- The buffers of md.c in allocation order (lines 23-29), which is also the
order in which they are freed (lines 88-94). -/
def allBufs : List Buf :=
  [Buf.LJ_LUT, Buf.FZA_LUT, Buf.pos, Buf.vel, Buf.fza, Buf.fza_aux,
   Buf.lambda]

/-- The `main` of md.c has no `return` statement; by C99 5.1.2.2.3 reaching
the closing brace of `main` returns 0, the success status. -/
def mainExitCode : ℤ := 0

def isSeedAct : Act → Bool
  | Act.seedRandom _ => true
  | _ => false

def isInitAct : Act → Bool
  | Act.initPositions => true
  | Act.initVelocities => true
  | _ => false

def isAllocAct : Act → Bool
  | Act.alloc _ _ => true
  | _ => false

def isFreeAct : Act → Bool
  | Act.free _ => true
  | _ => false

def isValidateAct : Act → Bool
  | Act.validateConfig => true
  | _ => false

def isCheckAllocAct : Act → Bool
  | Act.checkAlloc _ => true
  | _ => false

def isBuildAct : Act → Bool
  | Act.buildLJ _ => true
  | Act.buildFza _ => true
  | _ => false

def isCallVerletAct : Act → Bool
  | Act.callVerlet _ _ => true
  | _ => false

def isStoreLambdaAct : Act → Bool
  | Act.storeLambda _ => true
  | _ => false

def isPrintLambdaAct : Act → Bool
  | Act.printLambda _ => true
  | _ => false

def isAllocOf (b : Buf) : Act → Bool
  | Act.alloc c _ => b == c
  | _ => false

def isFreeOf (b : Buf) : Act → Bool
  | Act.free c => b == c
  | _ => false

/-- The buffer arguments an action carries: for a `verlet` call, the buffers
the call receives; for every other statement, none. -/
def argsOf : Act → List Buf
  | Act.callVerlet _ args => args
  | _ => []

/-- One line of standard output produced by the timestep loop of md.c. -/
inductive OutLine where
  | triplet (x y z : ℚ)
  | blank
  | scalar (v : ℚ)
deriving DecidableEq

/-- A particle's printed position triple, md.c line 51:
`printf("%f\t%f\t%f\n", pos[3*k], pos[3*k+1], pos[3*k+2])` — three
tab-separated floats, one particle per line. -/
def lineOfTriple (p : ℚ × ℚ × ℚ) : OutLine := OutLine.triplet p.1 p.2.1 p.2.2

/-- The snapshot block of one configuration, md.c lines 50-53: one position
triple per particle followed by the blank line of `printf("\n")`. -/
def snapshotBlock (ps : List (ℚ × ℚ × ℚ)) : List OutLine :=
  ps.map lineOfTriple ++ [OutLine.blank]

def isBlankLine : OutLine → Bool
  | OutLine.blank => true
  | _ => false

/-- Standard output of the timestep loop, md.c lines 47-64, from loop index
`i` with `fuel` iterations remaining, over an abstract state type `S`:
`posOf` reads the printed position triples, `temp` the scalar printed by
`printf("%f\n", Hboltzmann(vel, N, T))`, and `step` is the state update of
`verlet` (whose translation unit is outside the available sources).  The
snapshot test precedes the `verlet` call, and the `Hboltzmann` line prints
the post-step state. -/
def loopOut {S : Type} (posOf : S → List (ℚ × ℚ × ℚ)) (temp : S → ℚ)
    (step : S → S) : ℕ → ℕ → S → List OutLine
  | _, 0, _ => []
  | i, fuel + 1, s =>
    (if i % 10 = 0 then snapshotBlock (posOf s) else [])
      ++ (OutLine.scalar (temp (step s))
          :: loopOut posOf temp step (i + 1) fuel (step s))

/-- The whole run's standard output for `niter` iterations from state `s0`.
Nothing is printed before the loop or after it: the pre-loop prints and every
lambda-flushing loop in md.c are commented out. -/
def runOut {S : Type} (posOf : S → List (ℚ × ℚ × ℚ)) (temp : S → ℚ)
    (step : S → S) (niter : ℕ) (s0 : S) : List OutLine :=
  loopOut posOf temp step 0 niter s0

/-- The values written into the `lambda` buffer, md.c line 60: iteration `i`
first runs `verlet` and then stores `lambda_verlet` of the resulting state,
so the loop appends exactly one value per completed step. -/
def lambdaWrites {S : Type} (lam : S → ℚ) (step : S → S) : ℕ → S → List ℚ
  | 0, _ => []
  | n + 1, s => lam (step s) :: lambdaWrites lam step n (step s)

/-- The stored diagnostic series after the full run of `niter` iterations. -/
def lambdaSeries {S : Type} (lam : S → ℚ) (step : S → S) (s0 : S) : List ℚ :=
  lambdaWrites lam step mdNiter s0

lemma loopOut_eq {S : Type} (posOf : S → List (ℚ × ℚ × ℚ)) (temp : S → ℚ)
    (step : S → S) (fuel : ℕ) : ∀ (i : ℕ) (s : S),
    loopOut posOf temp step i fuel s =
      (List.range fuel).flatMap (fun k =>
        (if (i + k) % 10 = 0 then snapshotBlock (posOf (step^[k] s)) else [])
          ++ [OutLine.scalar (temp (step^[k + 1] s))]) := by
  induction fuel with
  | zero => intro i s; simp [loopOut]
  | succ n ih =>
    intro i s
    rw [loopOut, ih (i + 1) (step s), List.range_succ_eq_map]
    simp only [List.flatMap_cons, List.flatMap_map, Nat.add_zero,
      Function.iterate_zero_apply, Function.iterate_one, List.append_assoc,
      List.singleton_append]
    congr 1
    congr 1
    exact congrArg _ (funext fun k => by
      have h1 : i + (k + 1) = i + 1 + k := by omega
      simp only [Function.comp, Nat.succ_eq_add_one, h1,
        Function.iterate_succ_apply])

lemma lambdaWrites_eq {S : Type} (lam : S → ℚ) (step : S → S) (n : ℕ) :
    ∀ s : S, lambdaWrites lam step n s =
      (List.range n).map (fun i => lam (step^[i + 1] s)) := by
  induction n with
  | zero => intro s; simp [lambdaWrites]
  | succ m ih =>
    intro s
    rw [lambdaWrites, ih (step s), List.range_succ_eq_map]
    simp [Function.iterate_succ_apply, List.map_map, Function.comp]

lemma countP_blank_triples (ps : List (ℚ × ℚ × ℚ)) :
    (ps.map lineOfTriple).countP isBlankLine = 0 := by
  induction ps with
  | nil => rfl
  | cons a l ih => simp [List.countP_cons, lineOfTriple, isBlankLine, ih]

lemma countP_blank_scalars (f : ℕ → ℚ) (l : List ℕ) :
    (l.map (fun i => OutLine.scalar (f i))).countP isBlankLine = 0 := by
  induction l with
  | nil => rfl
  | cons a l ih => simp [List.countP_cons, isBlankLine, ih]

lemma runOut_ten {S : Type} (posOf : S → List (ℚ × ℚ × ℚ)) (temp : S → ℚ)
    (step : S → S) (s0 : S) :
    runOut posOf temp step mdNiter s0 =
      snapshotBlock (posOf s0)
        ++ (List.range mdNiter).map
            (fun i => OutLine.scalar (temp (step^[i + 1] s0))) := by
  rw [runOut, loopOut_eq posOf temp step mdNiter 0 s0]
  rw [show List.range mdNiter = [0, 1, 2, 3, 4, 5, 6, 7, 8, 9] from rfl]
  simp [Function.iterate_zero_apply]

/-- Claim C1 (amended): each loop iteration appends exactly one
order-parameter value to the stored series — entry `i` is `lambda_verlet` of
the state produced by step `i`, so the series holds one value per completed
timestep, appended in step order — but the series is never flushed or
printed: every lambda-printing loop in md.c is commented out, so the trace
contains no lambda-print action and the buffer is freed unprinted; the
scalar printed each step is the `Hboltzmann` temperature estimator instead. -/
theorem C1_lambda_stored_never_printed {S : Type} (lam : S → ℚ)
    (step : S → S) (s0 : S) :
    lambdaSeries lam step s0 =
      (List.range mdNiter).map (fun i => lam (step^[i + 1] s0)) ∧
    (lambdaSeries lam step s0).length = mdNiter ∧
    mainTrace.filter isStoreLambdaAct =
      (List.range mdNiter).map Act.storeLambda ∧
    mainTrace.countP isPrintLambdaAct = 0 ∧
    Act.free Buf.lambda ∈ mainTrace := by
  refine ⟨lambdaWrites_eq lam step mdNiter s0, ?_, by decide, by decide,
    by decide⟩
  rw [lambdaSeries, lambdaWrites_eq lam step mdNiter s0]
  simp

/-- Claim C1 fails as stated: the loop stores one lambda entry per timestep,
but no action of `main` prints a lambda value — the series buffer is freed
without ever being flushed, so the run's persisted output contains no
order-parameter values. -/
theorem C1_output_lacks_lambda :
    mainTrace.countP isStoreLambdaAct = mdNiter ∧
    mainTrace.countP isPrintLambdaAct = 0 ∧
    Act.free Buf.lambda ∈ mainTrace := by decide

/-- Claim C2 (amended): the two lookup tables are built exactly once, before
the loop, but the per-step integrator is invoked as
`verlet(pos, vel, &fza, &fza_aux, N, L, h, rc)` — neither `LJ_LUT` nor
`FZA_LUT` is among the arguments of any step, so the tables built upfront
are not an input to the per-step force evaluation (they are dead after
construction until freed). -/
theorem C2_step_does_not_receive_lut :
    mainTrace.filter (fun a =>
        isBuildAct a || isInitAct a || isCallVerletAct a) =
      [Act.buildLJ mdG, Act.buildFza mdG, Act.initPositions,
       Act.initVelocities]
        ++ (List.range mdNiter).map (fun i => Act.callVerlet i verletArgs) ∧
    verletArgs = [Buf.pos, Buf.vel, Buf.fza, Buf.fza_aux] ∧
    Buf.LJ_LUT ∉ verletArgs ∧ Buf.FZA_LUT ∉ verletArgs := by decide

/-- Claim C2 fails as stated: every one of the `niter` `verlet` calls is in
the trace, and none of them has a lookup-table buffer among its arguments
(`LJ_LUT` and `FZA_LUT` are local to `main`, so the separately compiled
`verlet` has no other way to reach them). -/
theorem C2_no_verlet_call_consults_lut :
    mainTrace.countP isCallVerletAct = mdNiter ∧
    (mainTrace.filter isCallVerletAct).all (fun a =>
      !((argsOf a).contains Buf.LJ_LUT)
        && !((argsOf a).contains Buf.FZA_LUT)) = true := by decide

/-- Claim C3 (amended): both lookup-table buffers are allocated with length
`g` and both builders are invoked with `g` — in md.c, `g` is the table size
itself (line 19, "Tamano de la Lookup-table"), not a per-unit resolution
from which a length `⌊g·rc⌋` would be computed. -/
theorem C3_lut_length_is_g :
    mainTrace.filter isAllocAct =
      [Act.alloc Buf.LJ_LUT mdG, Act.alloc Buf.FZA_LUT mdG,
       Act.alloc Buf.pos (3 * mdN), Act.alloc Buf.vel (3 * mdN),
       Act.alloc Buf.fza (3 * mdN), Act.alloc Buf.fza_aux (3 * mdN),
       Act.alloc Buf.lambda mdNiter] ∧
    mainTrace.filter isBuildAct = [Act.buildLJ mdG, Act.buildFza mdG] := by
  decide

/-- Claim C3 fails on the reference constants: the table buffers and builder
calls use the length `g = 2000` directly, while
`⌊g·rc⌋ = ⌊2000 · (L/2)⌋ ≥ 8000`, because `L = (512/0.844)^(1/3) > 8`. -/
theorem C3_g_is_not_floor_g_rc :
    Act.alloc Buf.LJ_LUT mdG ∈ mainTrace ∧ Act.buildLJ mdG ∈ mainTrace ∧
    Nat.floor ((mdG : ℝ) *
        (0.5 * (((mdN : ℝ) / (mdRho : ℝ)) ^ ((cOneThird : ℝ))))) ≠ mdG := by
  refine ⟨by decide, by decide, ?_⟩
  have h13 : ((cOneThird : ℚ) : ℝ) = 1 / 3 := by norm_num [cOneThird]
  have h512 : ((512 : ℝ)) ^ ((1 : ℝ) / 3) = 8 := by
    rw [show (512 : ℝ) = 8 ^ (3 : ℕ) by norm_num,
      ← Real.rpow_natCast (8 : ℝ) 3,
      ← Real.rpow_mul (by norm_num : (0 : ℝ) ≤ 8)]
    norm_num
  have h8 : (8 : ℝ) < ((mdN : ℝ) / (mdRho : ℝ)) ^ ((cOneThird : ℝ)) := by
    rw [h13]
    calc (8 : ℝ) = (512 : ℝ) ^ ((1 : ℝ) / 3) := h512.symm
      _ < ((mdN : ℝ) / (mdRho : ℝ)) ^ ((1 : ℝ) / 3) := by
          apply Real.rpow_lt_rpow (by norm_num) ?_ (by norm_num)
          norm_num [mdN, mdRho]
  intro hEq
  have hle : (8000 : ℕ) ≤ Nat.floor ((mdG : ℝ) *
      (0.5 * (((mdN : ℝ) / (mdRho : ℝ)) ^ ((cOneThird : ℝ))))) := by
    apply Nat.le_floor
    have hg : (mdG : ℝ) = 2000 := by norm_num [mdG]
    rw [hg]
    push_cast
    nlinarith [h8]
  rw [hEq] at hle
  norm_num [mdG] at hle

/-- Claim C4: the box edge satisfies `L³ = N/ρ` with `N/ρ` a real division
and `L` the positive real cube root — the exponent `(double)1/3` parses as
the real `1/3`, not the integer quotient `1/3 = 0` — and the cutoff is fixed
to `rc = L/2` once `L` is known. -/
theorem C4_box_geometry (L rc : ℝ) (hL : boxLenRel L)
    (hrc : cutoffRel L rc) :
    L ^ (3 : ℕ) = (mdN : ℝ) / (mdRho : ℝ) ∧ 0 < L ∧ rc = L / 2 ∧
    cOneThird = 1 / 3 ∧ ((1 / 3 : ℤ) : ℚ) = 0 := by
  have hx : (0 : ℝ) < (mdN : ℝ) / (mdRho : ℝ) := by norm_num [mdN, mdRho]
  have h13 : ((cOneThird : ℚ) : ℝ) = 1 / 3 := by norm_num [cOneThird]
  rw [boxLenRel] at hL
  rw [cutoffRel] at hrc
  subst hL
  refine ⟨?_, ?_, ?_, ?_, ?_⟩
  · rw [h13, ← Real.rpow_natCast
      (((mdN : ℝ) / (mdRho : ℝ)) ^ ((1 : ℝ) / 3)) 3,
      ← Real.rpow_mul hx.le]
    norm_num
  · exact Real.rpow_pos_of_pos hx _
  · rw [hrc]; ring
  · norm_num [cOneThird]
  · norm_num

/-- Witness for C4 at the program's own constants: the cube-root term of
md.c line 14 satisfies the stated properties. -/
theorem C4_box_geometry_witness :
    (((mdN : ℝ) / (mdRho : ℝ)) ^ ((cOneThird : ℝ))) ^ (3 : ℕ) =
      (mdN : ℝ) / (mdRho : ℝ) ∧
    0 < ((mdN : ℝ) / (mdRho : ℝ)) ^ ((cOneThird : ℝ)) ∧
    0.5 * (((mdN : ℝ) / (mdRho : ℝ)) ^ ((cOneThird : ℝ))) =
      (((mdN : ℝ) / (mdRho : ℝ)) ^ ((cOneThird : ℝ))) / 2 ∧
    cOneThird = 1 / 3 ∧ ((1 / 3 : ℤ) : ℚ) = 0 :=
  C4_box_geometry (((mdN : ℝ) / (mdRho : ℝ)) ^ ((cOneThird : ℝ)))
    (0.5 * (((mdN : ℝ) / (mdRho : ℝ)) ^ ((cOneThird : ℝ)))) rfl rfl

/-- Claim C5 (amended): md.c performs no configuration validation and no
allocation checking at all — the very first statement of `main`'s body after
the constant initialisers is an unchecked `malloc`, the trace contains no
validation or allocation-check action, and all seven buffers are allocated
unconditionally. -/
theorem C5_no_validation_no_alloc_checks :
    mainTrace.filter (fun a => isValidateAct a || isCheckAllocAct a) = [] ∧
    mainTrace.head? = some (Act.alloc Buf.LJ_LUT mdG) ∧
    mainTrace.countP isAllocAct = 7 := by decide

/-- Claim C5 fails as stated: allocations happen (seven of them, starting
with the first action of the trace), yet no validation action precedes them
and no allocation result is ever checked, so an allocation failure would not
abort the run. -/
theorem C5_allocs_unguarded :
    mainTrace.countP isValidateAct = 0 ∧
    mainTrace.countP isCheckAllocAct = 0 ∧
    mainTrace.countP isAllocAct = 7 ∧
    mainTrace.head? = some (Act.alloc Buf.LJ_LUT mdG) := by decide

/-- Claim C6: the random source is seeded exactly once per run, from
wall-clock time (`srand(time(NULL))`, line 31), and this single seeding
precedes both initialiser calls (`llenar`, line 39, and `velocidades`,
line 40) that consume entropy; no other action of the run reseeds. -/
theorem C6_seed_once_before_init :
    mainTrace.filter isSeedAct = [Act.seedRandom SeedSrc.wallClock] ∧
    mainTrace.filter (fun a => isSeedAct a || isInitAct a) =
      [Act.seedRandom SeedSrc.wallClock, Act.initPositions,
       Act.initVelocities] := by decide

/-- Claim C7: the timestep loop executes exactly `niter` iterations and then
stops, every one of the seven allocated buffers (both LUTs, positions,
velocities, both force buffers, the lambda series) is allocated once and
freed once, all frees come after the last integration step, and the process
exits with success (implicit `return 0` of C99 `main`). -/
theorem C7_run_completes_and_frees_all :
    mainTrace.filter isCallVerletAct =
      (List.range mdNiter).map (fun i => Act.callVerlet i verletArgs) ∧
    (mainTrace.filter isCallVerletAct).length = mdNiter ∧
    allBufs.all (fun b =>
      (mainTrace.countP (isAllocOf b) == 1)
        && (mainTrace.countP (isFreeOf b) == 1)) = true ∧
    mainTrace.filter (fun a => isCallVerletAct a || isFreeAct a) =
      (List.range mdNiter).map (fun i => Act.callVerlet i verletArgs)
        ++ allBufs.map Act.free ∧
    mainExitCode = 0 := by decide

/-- Claim C8: on the fixed cadence of md.c line 49 (`i % 10 == 0`), the loop
prints a full-configuration snapshot at the start of the iteration: one
tab-separated position triple per particle, one particle per line, followed
by a blank line; every other output line of the run is a per-step scalar. -/
theorem C8_snapshot_cadence_and_format {S : Type}
    (posOf : S → List (ℚ × ℚ × ℚ)) (temp : S → ℚ) (step : S → S)
    (niter : ℕ) (s0 : S) :
    runOut posOf temp step niter s0 =
      (List.range niter).flatMap (fun i =>
        (if i % 10 = 0 then snapshotBlock (posOf (step^[i] s0)) else [])
          ++ [OutLine.scalar (temp (step^[i + 1] s0))]) ∧
    (∀ ps : List (ℚ × ℚ × ℚ),
      snapshotBlock ps = ps.map lineOfTriple ++ [OutLine.blank] ∧
      (snapshotBlock ps).length = ps.length + 1) := by
  refine ⟨?_, fun ps => ⟨rfl, by simp [snapshotBlock]⟩⟩
  rw [runOut, loopOut_eq posOf temp step niter 0 s0]
  simp only [Nat.zero_add]

/-- Claim C9 (amended): the integrator's force state is not owned per step —
`main` allocates `fza` and `fza_aux` before the loop, passes both by address
(`float **`, so `verlet` can swap and retain them between calls) to every
one of the `niter` steps, and frees them only after the loop, so the force
buffers persist across steps. -/
theorem C9_force_buffers_persist :
    mainTrace.filter (fun a =>
        isAllocOf Buf.fza a || isAllocOf Buf.fza_aux a
          || isCallVerletAct a
          || isFreeOf Buf.fza a || isFreeOf Buf.fza_aux a) =
      [Act.alloc Buf.fza (3 * mdN), Act.alloc Buf.fza_aux (3 * mdN)]
        ++ (List.range mdNiter).map (fun i => Act.callVerlet i verletArgs)
        ++ [Act.free Buf.fza, Act.free Buf.fza_aux] ∧
    Buf.fza ∈ verletArgs ∧ Buf.fza_aux ∈ verletArgs := by decide

/-- Claim C9 fails as stated: the force buffer `fza` is allocated exactly
once, before the loop, and the same buffer is an argument of the `verlet`
call of step 0 and again of step 1 — it survives from one step to the next
instead of being owned for the duration of a single step. -/
theorem C9_fza_outlives_one_step :
    mainTrace.countP (isAllocOf Buf.fza) = 1 ∧
    Act.callVerlet 0 verletArgs ∈ mainTrace ∧
    Act.callVerlet 1 verletArgs ∈ mainTrace ∧
    Buf.fza ∈ verletArgs ∧ Buf.fza_aux ∈ verletArgs := by decide

/-- Claim C10: the snapshot test precedes the `verlet` call inside each
iteration, so the snapshot of loop index `i` shows the configuration after
exactly `i` completed integration steps; the run's first output lines are
the initial (pre-dynamics) configuration, and with the reference constant
`niter = 10` the run emits exactly one snapshot (one blank line). -/
theorem C10_snapshot_precedes_integration {S : Type}
    (posOf : S → List (ℚ × ℚ × ℚ)) (temp : S → ℚ) (step : S → S) (s0 : S) :
    (∀ niter : ℕ, runOut posOf temp step niter s0 =
      (List.range niter).flatMap (fun i =>
        (if i % 10 = 0 then snapshotBlock (posOf (step^[i] s0)) else [])
          ++ [OutLine.scalar (temp (step^[i + 1] s0))])) ∧
    runOut posOf temp step mdNiter s0 =
      snapshotBlock (posOf s0)
        ++ (List.range mdNiter).map
            (fun i => OutLine.scalar (temp (step^[i + 1] s0))) ∧
    (runOut posOf temp step mdNiter s0).countP isBlankLine = 1 := by
  refine ⟨?_, runOut_ten posOf temp step s0, ?_⟩
  · intro niter
    rw [runOut, loopOut_eq posOf temp step niter 0 s0]
    simp only [Nat.zero_add]
  · rw [runOut_ten posOf temp step s0]
    rw [List.countP_append, snapshotBlock, List.countP_append,
      countP_blank_triples, countP_blank_scalars]
    rfl
